import Mathlib

/-!
Verification development for the K-Beauty daily trend briefing pipeline.

The Python source is shallowly embedded: dataclasses become structures,
Python `Optional` values become `Option`, Python `float` fields become `Rat`
(only ever compared against literal constants here), raising code becomes
`Except`/`Option`-valued functions, and the external collaborators (the
OpenAI chat completion call and the `json.loads` parser) become explicit
parameters: the LLM call is an `LLMOutcome` (either the raised exception or
the returned message text) and the JSON library is a function
`String -> Option (List (String × JValue))` (returning `none` models a
`JSONDecodeError`).  Python string `.lower()` is modelled by an
ASCII lowercase map; non-ASCII characters are unaffected by both.
Where Python's dynamic typing would silently store an ill-typed JSON value
into a typed dataclass field, the model treats the conversion as a failure
(the enclosing `except Exception` branch); no theorem below depends on such
a path.
-/

namespace KBTA

/-! ## Python string helpers -/

/-- Opening brace character, written by code point to keep literals plain. -/
def lbrace : Char := Char.ofNat 123

/-- Closing brace character. -/
def rbrace : Char := Char.ofNat 125

/-- Python `str.find(c)`: index of the first occurrence of `c`, `-1` if absent. -/
def py_find (cs : List Char) (c : Char) : Int :=
  match cs with
  | [] => -1
  | x :: xs =>
    if x == c then 0
    else
      let r := py_find xs c
      if r == -1 then -1 else r + 1

/-- Python `str.rfind(c)`: index of the last occurrence of `c`, `-1` if absent. -/
def py_rfind (cs : List Char) (c : Char) : Int :=
  match cs with
  | [] => -1
  | x :: xs =>
    let r := py_rfind xs c
    if r == -1 then (if x == c then 0 else -1) else r + 1

/-- Python slice `s[a:b]` for nonnegative bounds. -/
def py_slice (cs : List Char) (a b : Int) : List Char :=
  ((cs.drop a.toNat).take (b - a).toNat)

/-- Does `needle` occur at the head of `hay`? -/
def leading_match : List Char → List Char → Bool
  | [], _ => true
  | _ :: _, [] => false
  | a :: as, b :: bs => a == b && leading_match as bs

/-- Python `needle in hay` substring containment on character lists. -/
def contains_sub (hay needle : List Char) : Bool :=
  match hay with
  | [] => needle.isEmpty
  | _ :: t => leading_match needle hay || contains_sub t needle

/-- Python `needle in hay` on strings. -/
def str_contains (hay needle : String) : Bool :=
  contains_sub hay.data needle.data

/-- ASCII lowercase of one character, as Python `str.lower` acts on the
characters appearing in this code base. -/
def py_char_lower (c : Char) : Char :=
  if 65 ≤ c.toNat && c.toNat ≤ 90 then Char.ofNat (c.toNat + 32) else c

/-- Python `str.lower()` (ASCII range; other characters are unchanged). -/
def py_lower (s : String) : String := String.mk (s.data.map py_char_lower)

/-! ## JSON values (the shape `json.loads` can return) -/

/-- A parsed JSON value. -/
inductive JValue where
  | null
  | bool (b : Bool)
  | num (q : Rat)
  | str (s : String)
  | arr (elements : List JValue)
  | obj (fields : List (String × JValue))

/-- A parsed JSON object, as returned by a successful `json.loads` of a
string that starts with an opening brace. -/
abbrev JObj := List (String × JValue)

/-- The JSON library collaborator: `none` models `json.JSONDecodeError`. -/
abbrev JsonLoads := String → Option JObj

/-- Python `dict.get(key, default)` on a parsed JSON object. -/
def jget : JObj → String → JValue → JValue
  | [], _, dflt => dflt
  | (k, v) :: rest, key, dflt => if k == key then v else jget rest key dflt

/-- Read a string-typed field with a default; a non-string value is a
conversion failure in this model. -/
def jget_string (o : JObj) (key dflt : String) : Option String :=
  match jget o key (JValue.str dflt) with
  | JValue.str s => some s
  | _ => none

/-- Read a float-typed field with a default; a non-numeric value is a
conversion failure in this model. -/
def jget_rat (o : JObj) (key : String) (dflt : Rat) : Option Rat :=
  match jget o key (JValue.num dflt) with
  | JValue.num q => some q
  | _ => none

/-- Interpret a JSON value as a string. -/
def as_string : JValue → Option String
  | JValue.str s => some s
  | _ => none

/-- Interpret a JSON value as an object (`dict`); anything else would raise
on attribute access in Python. -/
def as_obj : JValue → Option JObj
  | JValue.obj o => some o
  | _ => none

/-- Read a list-of-strings field with default `[]`; a JSON `null` is Python
`None` (hence `some none`), an array of strings is the list itself. -/
def jget_opt_str_list (o : JObj) (key : String) : Option (Option (List String)) :=
  match jget o key (JValue.arr []) with
  | JValue.null => some none
  | JValue.arr xs => (xs.mapM as_string).map some
  | _ => none

/-! ## models.py -/

/-- `TrendCategory` enum. -/
inductive TrendCategory where
  | skincare | makeup | hair | fragrance | tools
  | ingredients | packaging | sustainability | technology | general
deriving DecidableEq

/-- `TrendCategory(value)` lookup; `none` models the raised `ValueError`. -/
def TrendCategory.fromValue : String → Option TrendCategory
  | "skincare" => some .skincare
  | "makeup" => some .makeup
  | "hair" => some .hair
  | "fragrance" => some .fragrance
  | "tools" => some .tools
  | "ingredients" => some .ingredients
  | "packaging" => some .packaging
  | "sustainability" => some .sustainability
  | "technology" => some .technology
  | "general" => some .general
  | _ => none

/-- `BusinessImpact` enum. -/
inductive BusinessImpact where
  | low | medium | high | critical
deriving DecidableEq

/-- `BusinessImpact(value)` lookup; `none` models the raised `ValueError`. -/
def BusinessImpact.fromValue : String → Option BusinessImpact
  | "low" => some .low
  | "medium" => some .medium
  | "high" => some .high
  | "critical" => some .critical
  | _ => none

/-- A naive datetime (year, month, day, hour, minute, second). -/
structure PyDateTime where
  year : Nat
  month : Nat
  day : Nat
  hour : Nat
  minute : Nat
  second : Nat
deriving DecidableEq

/-- Zero-pad a number to two digits, as `strftime` does for month and day. -/
def pad2 (n : Nat) : String :=
  if n < 10 then "0" ++ toString n else toString n

/-- Zero-pad a number to four digits, as `strftime` does for the year. -/
def pad4 (n : Nat) : String :=
  if n < 10 then "000" ++ toString n
  else if n < 100 then "00" ++ toString n
  else if n < 1000 then "0" ++ toString n
  else toString n

/-- `dt.strftime(pat)` for the pattern with year month day. -/
def strftime_Ymd (dt : PyDateTime) : String :=
  pad4 dt.year ++ pad2 dt.month ++ pad2 dt.day

/-- `dt.strftime(pat)` for the pattern with date, underscore, time. -/
def strftime_Ymd_HMS (dt : PyDateTime) : String :=
  strftime_Ymd dt ++ "_" ++ pad2 dt.hour ++ pad2 dt.minute ++ pad2 dt.second

/-- `ScrapedPost` dataclass.  The `date` attribute is dynamically typed in
the source (the scraper stores a stripped string, the mock generator a
datetime); it is modelled as an optional string, which no claim inspects. -/
structure ScrapedPost where
  title : String
  content : String
  source : String
  url : Option String
  date : Option String
  author : Option String
  engagement : Option Int
deriving DecidableEq

/-- `Trend` dataclass.  The two list fields are `Option` so that the Python
`None` default is representable; the dataclass constructor below runs the
code of `Trend.__init__` followed by `Trend.__post_init__`. -/
structure Trend where
  trend_name : String
  description : String
  confidence : Rat
  category : TrendCategory
  business_impact : BusinessImpact
  sources : Option (List String)
  keywords : Option (List String)
deriving DecidableEq

/-- `Trend(...)` construction: `__post_init__` replaces a `None` in
`sources` or `keywords` by the empty list. -/
def Trend.mk_dataclass (trend_name description : String) (confidence : Rat)
    (category : TrendCategory) (business_impact : BusinessImpact)
    (sources keywords : Option (List String)) : Trend :=
  { trend_name := trend_name, description := description,
    confidence := confidence, category := category,
    business_impact := business_impact,
    sources := some (sources.getD []), keywords := some (keywords.getD []) }

/-- `TrendAnalysis` dataclass. -/
structure TrendAnalysis where
  trends : List Trend
  analysis_date : PyDateTime
  total_posts_analyzed : Nat
  confidence_score : Rat
deriving DecidableEq

/-- `PriorityTrend` dataclass, list field optional as in `Trend`. -/
structure PriorityTrend where
  rank : Nat
  trend_name : String
  reasoning : String
  business_impact : BusinessImpact
  action_items : Option (List String)
deriving DecidableEq

/-- `PriorityTrend(...)` construction with its `__post_init__`. -/
def PriorityTrend.mk_dataclass (rank : Nat) (trend_name reasoning : String)
    (business_impact : BusinessImpact) (action_items : Option (List String)) :
    PriorityTrend :=
  { rank := rank, trend_name := trend_name, reasoning := reasoning,
    business_impact := business_impact,
    action_items := some (action_items.getD []) }

/-- `MarketOpportunity` dataclass. -/
structure MarketOpportunity where
  opportunity_name : String
  description : String
  potential_value : String
  time_horizon : String
  action_items : Option (List String)
deriving DecidableEq

/-- `MarketOpportunity(...)` construction with its `__post_init__`. -/
def MarketOpportunity.mk_dataclass (opportunity_name description potential_value
    time_horizon : String) (action_items : Option (List String)) :
    MarketOpportunity :=
  { opportunity_name := opportunity_name, description := description,
    potential_value := potential_value, time_horizon := time_horizon,
    action_items := some (action_items.getD []) }

/-- `RiskFactor` dataclass. -/
structure RiskFactor where
  risk_name : String
  description : String
  severity : String
  mitigation_strategies : Option (List String)
deriving DecidableEq

/-- `RiskFactor(...)` construction with its `__post_init__`. -/
def RiskFactor.mk_dataclass (risk_name description severity : String)
    (mitigation_strategies : Option (List String)) : RiskFactor :=
  { risk_name := risk_name, description := description, severity := severity,
    mitigation_strategies := some (mitigation_strategies.getD []) }

/-- `SynthesisResults` dataclass. -/
structure SynthesisResults where
  priority_trends : List PriorityTrend
  market_opportunities : List MarketOpportunity
  risk_factors : List RiskFactor
  executive_summary : String
  synthesis_date : PyDateTime
deriving DecidableEq

/-- `DailyBriefing` dataclass (fields only; see `DailyBriefing.mk_dataclass`). -/
structure DailyBriefing where
  briefing_id : String
  date : PyDateTime
  scraped_posts_count : Nat
  trend_analysis : TrendAnalysis
  synthesis_results : SynthesisResults
deriving DecidableEq

/-- `DailyBriefing(...)` construction: `__post_init__` derives the id from
the date when an empty id was supplied. -/
def DailyBriefing.mk_dataclass (briefing_id : String) (date : PyDateTime)
    (scraped_posts_count : Nat) (trend_analysis : TrendAnalysis)
    (synthesis_results : SynthesisResults) : DailyBriefing :=
  { briefing_id :=
      if briefing_id == "" then "briefing_" ++ strftime_Ymd_HMS date
      else briefing_id,
    date := date, scraped_posts_count := scraped_posts_count,
    trend_analysis := trend_analysis, synthesis_results := synthesis_results }

/-- `PipelineStatus` dataclass (the mutable status record of the pipeline). -/
structure PipelineStatus where
  status : String
  start_time : PyDateTime
  end_time : Option PyDateTime
  error_message : Option String
  briefing_id : Option String
deriving DecidableEq

/-! ## agents.py -/

/-- Outcome of the one `openai.ChatCompletion.acreate` call: either the call
raised (network error, bad key, ...) or it returned a message text.  Prompt
assembly feeds only into the request, so it is absorbed into this outcome. -/
inductive LLMOutcome where
  | failure
  | success (content : String)

/-- The brace-span extraction both agents perform before `json.loads`:
substring from the first opening brace to the last closing brace inclusive,
`none` when that span does not exist. -/
def extract_json_span (content : String) : Option String :=
  let cs := content.data
  let start_idx := py_find cs lbrace
  let end_idx := py_rfind cs rbrace + 1
  if start_idx != -1 && end_idx != 0 then
    some (String.mk (py_slice cs start_idx end_idx))
  else
    none

/-- No parseable JSON in an LLM response: either no brace span exists, or
`json.loads` fails on the extracted span. -/
def no_parseable_json (loads : JsonLoads) (content : String) : Bool :=
  match extract_json_span content with
  | none => true
  | some js => (loads js).isNone

/-- `TrendResearcherAgent._parse_json_response`: on any parse failure the
dictionary with an empty trends list is returned. -/
def researcher_parse_json_response (loads : JsonLoads) (content : String) : JObj :=
  match extract_json_span content with
  | none => [("trends", JValue.arr [])]
  | some js =>
    match loads js with
    | some o => o
    | none => [("trends", JValue.arr [])]

/-- Conversion of one parsed trend dictionary into a `Trend`
(the loop body of `analyze_trends`); `none` models a raised exception
(for example `TrendCategory(...)` on an unknown category value). -/
def jvalue_to_trend (td : JObj) : Option Trend := do
  let tn ← jget_string td "trend_name" ""
  let ds ← jget_string td "description" ""
  let cf ← jget_rat td "confidence" 0
  let ct ← TrendCategory.fromValue (← jget_string td "category" "general")
  let bi ← BusinessImpact.fromValue (← jget_string td "business_impact" "low")
  let srcs ← jget_opt_str_list td "sources"
  let kws ← jget_opt_str_list td "keywords"
  pure (Trend.mk_dataclass tn ds cf ct bi srcs kws)

/-- The conversion loop of `analyze_trends` over the parsed trend list; an
exception on any element aborts the whole loop. -/
def convert_trends_list : List JValue → Option (List Trend)
  | [] => some []
  | it :: rest => do
    let o ← as_obj it
    let t ← jvalue_to_trend o
    let tail ← convert_trends_list rest
    pure (t :: tail)

/-- Conversion of the `trends` entry of the parsed response into the trend
list; a non-array value or a non-object element is a failure. -/
def convert_trends : JValue → Option (List Trend)
  | JValue.arr items => convert_trends_list items
  | _ => none

/-- `TrendResearcherAgent.analyze_trends`: the whole body sits in one
`try`, whose `except Exception` branch returns the empty analysis with the
input post count and confidence zero. -/
def analyze_trends (loads : JsonLoads) (llm : LLMOutcome)
    (posts : List ScrapedPost) (now : PyDateTime) : TrendAnalysis :=
  let failure_result : TrendAnalysis :=
    { trends := [], analysis_date := now,
      total_posts_analyzed := posts.length, confidence_score := 0 }
  match llm with
  | LLMOutcome.failure => failure_result
  | LLMOutcome.success content =>
    let trends_data := researcher_parse_json_response loads content
    match convert_trends (jget trends_data "trends" (JValue.arr [])),
          jget_rat trends_data "confidence_score" 0 with
    | some trends, some cs =>
      { trends := trends, analysis_date := now,
        total_posts_analyzed := posts.length, confidence_score := cs }
    | _, _ => failure_result

/-- `FeedbackSynthesizerAgent._parse_json_response`: on any parse failure
the empty dictionary is returned (unlike the researcher variant). -/
def synthesizer_parse_json_response (loads : JsonLoads) (content : String) : JObj :=
  match extract_json_span content with
  | none => []
  | some js => (loads js).getD []

/-- `FeedbackSynthesizerAgent._parse_priority_trends`, indexed from `k`
instead of `0` for the recursion: element `j` of the remaining list receives
rank `k + j + 1`, matching `enumerate` with `rank=i + 1`. -/
def parse_priority_trends_from (k : Nat) : List JValue → Option (List PriorityTrend)
  | [] => some []
  | item :: rest => do
    let o ← as_obj item
    let tn ← jget_string o "trend_name" ""
    let rs ← jget_string o "reasoning" ""
    let bi ← BusinessImpact.fromValue (← jget_string o "business_impact" "low")
    let ai ← jget_opt_str_list o "action_items"
    let tail ← parse_priority_trends_from (k + 1) rest
    pure (PriorityTrend.mk_dataclass (k + 1) tn rs bi ai :: tail)

/-- `FeedbackSynthesizerAgent._parse_priority_trends` on the raw JSON value. -/
def parse_priority_trends : JValue → Option (List PriorityTrend)
  | JValue.arr items => parse_priority_trends_from 0 items
  | _ => none

/-- One element of `_parse_market_opportunities`. -/
def jvalue_to_market_opportunity (o : JObj) : Option MarketOpportunity := do
  let nm ← jget_string o "opportunity_name" ""
  let ds ← jget_string o "description" ""
  let pv ← jget_string o "potential_value" ""
  let th ← jget_string o "time_horizon" ""
  let ai ← jget_opt_str_list o "action_items"
  pure (MarketOpportunity.mk_dataclass nm ds pv th ai)

/-- The loop of `_parse_market_opportunities`. -/
def parse_market_opportunities_list : List JValue → Option (List MarketOpportunity)
  | [] => some []
  | it :: rest => do
    let o ← as_obj it
    let mo ← jvalue_to_market_opportunity o
    let tail ← parse_market_opportunities_list rest
    pure (mo :: tail)

/-- `FeedbackSynthesizerAgent._parse_market_opportunities`. -/
def parse_market_opportunities : JValue → Option (List MarketOpportunity)
  | JValue.arr items => parse_market_opportunities_list items
  | _ => none

/-- One element of `_parse_risk_factors`. -/
def jvalue_to_risk_factor (o : JObj) : Option RiskFactor := do
  let nm ← jget_string o "risk_name" ""
  let ds ← jget_string o "description" ""
  let sv ← jget_string o "severity" "low"
  let ms ← jget_opt_str_list o "mitigation_strategies"
  pure (RiskFactor.mk_dataclass nm ds sv ms)

/-- The loop of `_parse_risk_factors`. -/
def parse_risk_factors_list : List JValue → Option (List RiskFactor)
  | [] => some []
  | it :: rest => do
    let o ← as_obj it
    let rf ← jvalue_to_risk_factor o
    let tail ← parse_risk_factors_list rest
    pure (rf :: tail)

/-- `FeedbackSynthesizerAgent._parse_risk_factors`. -/
def parse_risk_factors : JValue → Option (List RiskFactor)
  | JValue.arr items => parse_risk_factors_list items
  | _ => none

/-- Building the `SynthesisResults(...)` argument list from the parsed
dictionary, in Python evaluation order; `none` models an exception raised
by any of the conversions. -/
def synthesize_convert (sd : JObj) (now : PyDateTime) : Option SynthesisResults := do
  let pts ← parse_priority_trends (jget sd "priority_trends" (JValue.arr []))
  let mos ← parse_market_opportunities (jget sd "market_opportunities" (JValue.arr []))
  let rfs ← parse_risk_factors (jget sd "risk_factors" (JValue.arr []))
  let es ← jget_string sd "executive_summary" ""
  pure { priority_trends := pts, market_opportunities := mos,
         risk_factors := rfs, executive_summary := es, synthesis_date := now }

/-- `FeedbackSynthesizerAgent.synthesize_feedback`: the body sits in one
`try`, whose `except Exception` branch returns the empty synthesis with the
summary text about the failed analysis. -/
def synthesize_feedback (loads : JsonLoads) (llm : LLMOutcome)
    (_trend_analysis : TrendAnalysis) (now : PyDateTime) : SynthesisResults :=
  let failure_result : SynthesisResults :=
    { priority_trends := [], market_opportunities := [], risk_factors := [],
      executive_summary := "Analysis failed", synthesis_date := now }
  match llm with
  | LLMOutcome.failure => failure_result
  | LLMOutcome.success content =>
    match synthesize_convert (synthesizer_parse_json_response loads content) now with
    | some r => r
    | none => failure_result

/-! ## scraper.py (relevance filter) -/

/-- The hard-coded keyword list of `_filter_relevant_content` (duplicates
included, as written in the source). -/
def kbeauty_keywords : List String :=
  ["korean", "k-beauty", "kbeauty", "skincare", "beauty",
   "cosmetics", "makeup", "skincare", "serum", "essence",
   "toner", "moisturizer", "cleanser", "mask", "cream",
   "korean beauty", "korean skincare", "korean makeup",
   "k-beauty", "kbeauty", "korean cosmetics"]

/-- The relevance test of the loop body: the lowercased title, a space and
the content contain at least one keyword as a substring. -/
def is_relevant_post (post : ScrapedPost) : Bool :=
  let content_text := py_lower (post.title ++ " " ++ post.content)
  kbeauty_keywords.any (fun kw => str_contains content_text kw)

/-- `KBeautyScraper._filter_relevant_content`, with the scraped posts passed
explicitly instead of read from the instance attribute: accumulate, in input
order, the posts passing the relevance test. -/
def filter_relevant_content (posts : List ScrapedPost) : List ScrapedPost :=
  posts.foldl
    (fun relevant_posts post =>
      if is_relevant_post post then relevant_posts ++ [post] else relevant_posts)
    []

/-! ## output.py -/

/-- An output handler: its class name and its write effect on a briefing
(the file write or remote page creation, which may raise). -/
structure OutputSink where
  name : String
  write : DailyBriefing → Except String Unit

/-- The body of one handler `save_briefing` call: the write effect inside
`try`, with `except Exception` returning `False`.  The result type keeps an
error channel so that the absence of an escaping exception is a theorem,
not a typing artifact. -/
def handler_save_briefing (h : OutputSink) (b : DailyBriefing) : Except String Bool :=
  match h.write b with
  | Except.ok _ => Except.ok true
  | Except.error _ => Except.ok false

/-- Whether a single sink attempt succeeds. -/
def sink_attempt_result (h : OutputSink) (b : DailyBriefing) : Bool :=
  match h.write b with
  | Except.ok _ => true
  | Except.error _ => false

/-- `OutputPipeline.save_briefing`: loop over the enabled handlers,
recording each handler result under its class name. -/
def output_pipeline_save_briefing (handlers : List OutputSink)
    (b : DailyBriefing) : Except String (List (String × Bool)) :=
  handlers.foldlM
    (fun results h => do
      let success ← handler_save_briefing h b
      pure (results ++ [(h.name, success)]))
    []

/-- The Markdown file name, from `MarkdownOutputHandler.save_briefing`. -/
def markdown_filename (b : DailyBriefing) : String :=
  "kbeauty_briefing_" ++ strftime_Ymd b.date ++ ".md"

/-- The JSON file name, from `JSONOutputHandler.save_briefing`. -/
def json_filename (b : DailyBriefing) : String :=
  "kbeauty_briefing_" ++ b.briefing_id ++ ".json"

/-- `NotionOutputHandler.save_briefing`: when the handler is not enabled it
logs a warning and returns `False` without touching the client; otherwise
the page-creation call runs inside `try` with `except` returning `False`. -/
def notion_handler_save (notion_enabled : Bool)
    (api_call : Except String Unit) : Except String Bool :=
  if !notion_enabled then Except.ok false
  else
    match api_call with
    | Except.ok _ => Except.ok true
    | Except.error _ => Except.ok false

/-! ## config.py -/

/-- `NotionConfig` after environment loading. -/
structure NotionConfig where
  token : String
  database_id : String
  enabled : Bool
deriving DecidableEq

/-- `OutputConfig` after environment loading. -/
structure OutputConfig where
  markdown_enabled : Bool
  notion_enabled : Bool
  json_enabled : Bool
deriving DecidableEq

/-- The configuration slice relevant to the output pipeline. -/
structure Config where
  notion : NotionConfig
  output : OutputConfig
deriving DecidableEq

/-- `os.getenv(key, default)` over an abstract environment. -/
def getenv_default (env : String → Option String) (key dflt : String) : String :=
  (env key).getD dflt

/-- `Config._load_from_env`, restricted to the Notion and output fields: the
Notion credential flag is derived from both variables being non-empty
(Python truthiness of the `and` of two strings), while
`output.notion_enabled` is never assigned there and keeps its dataclass
default `False`. -/
def load_from_env (env : String → Option String) : Config :=
  let token := getenv_default env "NOTION_TOKEN" ""
  let database_id := getenv_default env "NOTION_DATABASE_ID" ""
  { notion :=
      { token := token, database_id := database_id,
        enabled := !(token == "") && !(database_id == "") },
    output :=
      { markdown_enabled := py_lower (getenv_default env "MARKDOWN_ENABLED" "true") == "true",
        json_enabled := py_lower (getenv_default env "JSON_ENABLED" "true") == "true",
        notion_enabled := false } }

/-- `OutputPipeline.__init__`: the class names of the handlers appended,
in order, for a given configuration. -/
def output_pipeline_handler_names (cfg : Config) : List String :=
  (if cfg.output.markdown_enabled then ["MarkdownOutputHandler"] else []) ++
  (if cfg.output.json_enabled then ["JSONOutputHandler"] else []) ++
  (if cfg.output.notion_enabled then ["NotionOutputHandler"] else [])

/-! ## api/app.py -/

/-- The module-global `analysis_status` dictionary. -/
structure ApiAnalysisStatus where
  is_running : Bool
  last_run : Option String
  last_status : String
deriving DecidableEq

/-- What the `trigger_analysis` route hands back: a raised `HTTPException`
or a `TrendResponse`. -/
inductive TriggerOutcome where
  | http_error (status_code : Nat) (detail : String)
  | response (status message : String)
deriving DecidableEq

/-- `trigger_analysis` (the public trigger route): raising the conflict
exception leaves the status dictionary untouched; otherwise the run is
marked as started before the background task is queued. -/
def trigger_analysis (st : ApiAnalysisStatus) (now_iso : String) :
    ApiAnalysisStatus × TriggerOutcome :=
  if st.is_running then
    (st, TriggerOutcome.http_error 409
      "Analysis is already running. Please wait for completion.")
  else
    ({ is_running := true, last_run := some now_iso, last_status := "started" },
     TriggerOutcome.response "started" "Trend analysis pipeline started")

/-! ## pipeline.py -/

/-- Inputs of one `run_daily_briefing` call: the JSON library, the two LLM
call outcomes, the posts returned by `scrape_all_sources`, the enabled
output handlers, and the timestamps taken during the run. -/
structure RunInputs where
  loads : JsonLoads
  llm_trend : LLMOutcome
  llm_synthesis : LLMOutcome
  posts : List ScrapedPost
  handlers : List OutputSink
  t_run : PyDateTime
  t_analysis : PyDateTime
  t_end : PyDateTime

/-- `DailyBriefingPipeline.run_daily_briefing`, after a successful API-key
validation: scrape, guard against zero posts, run the two agents, assemble
the briefing and save it, updating the status record.  The Python guard on
falsy agent results never fires (dataclass instances are truthy) and is
omitted; the outer `except` also covers a raising output pipeline, hence
the match on its error channel. -/
def run_daily_briefing (inp : RunInputs) :
    PipelineStatus × Option DailyBriefing × List (String × Bool) :=
  if inp.posts.isEmpty then
    ({ status := "failed", start_time := inp.t_run, end_time := some inp.t_end,
       error_message := some "No content scraped", briefing_id := none },
     none, [])
  else
    let trend_analysis := analyze_trends inp.loads inp.llm_trend inp.posts inp.t_analysis
    let synthesis_results :=
      synthesize_feedback inp.loads inp.llm_synthesis trend_analysis inp.t_analysis
    let briefing_id := "briefing_" ++ strftime_Ymd_HMS inp.t_analysis
    let briefing := DailyBriefing.mk_dataclass briefing_id inp.t_analysis
      inp.posts.length trend_analysis synthesis_results
    match output_pipeline_save_briefing inp.handlers briefing with
    | Except.ok results =>
      ({ status := "completed", start_time := inp.t_run, end_time := some inp.t_end,
         error_message := none, briefing_id := some briefing.briefing_id },
       some briefing, results)
    | Except.error e =>
      ({ status := "failed", start_time := inp.t_run, end_time := some inp.t_end,
         error_message := some e, briefing_id := none },
       none, [])

/-! ## Concrete fixtures for witnesses and counterexamples -/

/-- A fixed timestamp. -/
def d0 : PyDateTime := ⟨2024, 1, 1, 9, 0, 0⟩

/-- A later fixed timestamp. -/
def d1 : PyDateTime := ⟨2024, 1, 1, 9, 5, 0⟩

/-- One concrete scraped post. -/
def post0 : ScrapedPost :=
  ⟨"Korean skincare tips", "glass skin routine", "naver_beauty", none, none, none, none⟩

/-- An empty concrete trend analysis. -/
def analysis0 : TrendAnalysis := ⟨[], d0, 0, 0⟩

/-- An empty concrete synthesis result. -/
def synthesis0 : SynthesisResults := ⟨[], [], [], "", d0⟩

/-- A briefing produced at 10:00 on 2024-01-01. -/
def briefing_a : DailyBriefing :=
  DailyBriefing.mk_dataclass "briefing_20240101_100000" ⟨2024, 1, 1, 10, 0, 0⟩ 3
    analysis0 synthesis0

/-- A briefing produced at 11:00 on the same day, with a distinct id. -/
def briefing_b : DailyBriefing :=
  DailyBriefing.mk_dataclass "briefing_20240101_110000" ⟨2024, 1, 1, 11, 0, 0⟩ 3
    analysis0 synthesis0

/-- A status record with a run in progress. -/
def running_status : ApiAnalysisStatus := ⟨true, none, "started"⟩

/-- Run inputs whose content source yielded zero posts. -/
def empty_run_inputs : RunInputs :=
  { loads := fun _ => none, llm_trend := LLMOutcome.failure,
    llm_synthesis := LLMOutcome.failure, posts := [], handlers := [],
    t_run := d0, t_analysis := d0, t_end := d1 }

/-- An environment configuring both Notion variables and nothing else. -/
def env_notion_only : String → Option String := fun k =>
  if k == "NOTION_TOKEN" then some "secret-token"
  else if k == "NOTION_DATABASE_ID" then some "db-id"
  else none

/-! ## Helper lemmas -/

/-- The accumulate-if loop of the relevance filter is `List.filter`. -/
theorem foldl_append_filter {α : Type} (p : α → Bool) :
    ∀ (l acc : List α),
      l.foldl (fun a x => if p x then a ++ [x] else a) acc = acc ++ l.filter p
  | [], acc => by simp
  | x :: xs, acc => by
    by_cases h : p x <;>
      simp [List.foldl_cons, h, foldl_append_filter p xs, List.filter_cons]

/-- A handler call always returns its attempt result; the `except` clause
turns the write exception into `False` instead of re-raising. -/
theorem handler_save_briefing_eq (h : OutputSink) (b : DailyBriefing) :
    handler_save_briefing h b = Except.ok (sink_attempt_result h b) := by
  unfold handler_save_briefing sink_attempt_result
  cases h.write b <;> rfl

/-- The sink loop, with its accumulator generalized. -/
theorem output_pipeline_save_aux (b : DailyBriefing) :
    ∀ (handlers : List OutputSink) (acc : List (String × Bool)),
      (handlers.foldlM
        (fun results h => do
          let success ← handler_save_briefing h b
          pure (results ++ [(h.name, success)]))
        acc : Except String (List (String × Bool))) =
      Except.ok (acc ++ handlers.map fun h => (h.name, sink_attempt_result h b))
  | [], acc => by simp only [List.foldlM_nil, List.map_nil, List.append_nil]; rfl
  | h :: hs, acc => by
    have hrec := output_pipeline_save_aux b hs (acc ++ [(h.name, sink_attempt_result h b)])
    rw [List.foldlM_cons, handler_save_briefing_eq]
    exact hrec.trans (by simp)

/-! ## Claim theorems -/

/-- C2: persisting a briefing attempts every enabled sink independently,
records one boolean per sink under its handler name (`false` exactly when
that sink's write effect raised), and the persist operation itself never
propagates an exception (its error channel is never used); moreover each
individual handler call returns rather than raises. -/
theorem output_pipeline_save_independent (handlers : List OutputSink)
    (b : DailyBriefing) :
    output_pipeline_save_briefing handlers b =
      Except.ok (handlers.map fun h => (h.name, sink_attempt_result h b)) ∧
    ∀ (h : OutputSink), handler_save_briefing h b = Except.ok (sink_attempt_result h b) := by
  constructor
  · simpa using output_pipeline_save_aux b handlers []
  · intro h
    cases hw : h.write b <;> simp [handler_save_briefing, sink_attempt_result, hw]

/-- C3: the relevance filter returns exactly the posts whose lowercased
`title ++ " " ++ content` contains some configured keyword as a substring,
in input order; the result is a sublist of the input (nothing fabricated or
duplicated) and the empty input yields the empty output. -/
theorem filter_relevant_content_spec (posts : List ScrapedPost) :
    filter_relevant_content posts =
      posts.filter (fun post =>
        kbeauty_keywords.any (fun kw =>
          str_contains (py_lower (post.title ++ " " ++ post.content)) kw)) ∧
    List.Sublist (filter_relevant_content posts) posts ∧
    filter_relevant_content [] = [] := by
  have hmain : filter_relevant_content posts = posts.filter is_relevant_post := by
    simpa using foldl_append_filter is_relevant_post posts []
  refine ⟨?_, ?_, rfl⟩
  · rw [hmain]; rfl
  · rw [hmain]; exact List.filter_sublist posts

/-- C5: a trigger call that finds a run already in progress returns the
409 conflict rejection and leaves the status record unchanged, so no second
transition to the running state occurs. -/
theorem trigger_analysis_conflict (st : ApiAnalysisStatus) (now_iso : String)
    (h : st.is_running = true) :
    trigger_analysis st now_iso =
      (st, TriggerOutcome.http_error 409
        "Analysis is already running. Please wait for completion.") := by
  simp [trigger_analysis, h]

/-- Witness for C5 at a concrete in-progress status. -/
theorem trigger_analysis_conflict_witness :
    trigger_analysis running_status "2024-01-01T09:00:00" =
      (running_status, TriggerOutcome.http_error 409
        "Analysis is already running. Please wait for completion.") :=
  trigger_analysis_conflict running_status "2024-01-01T09:00:00" rfl

/-- C6: a run whose content source yields zero posts ends with status
`failed`, the human-readable message about no content, a stamped end time,
no briefing, and no sink attempts. -/
theorem run_daily_briefing_zero_posts (inp : RunInputs) (h : inp.posts = []) :
    run_daily_briefing inp =
      ({ status := "failed", start_time := inp.t_run, end_time := some inp.t_end,
         error_message := some "No content scraped", briefing_id := none },
       none, []) := by
  simp [run_daily_briefing, h]

/-- Witness for C6 at concrete run inputs with an empty post list. -/
theorem run_daily_briefing_zero_posts_witness :
    run_daily_briefing empty_run_inputs =
      ({ status := "failed", start_time := d0, end_time := some d1,
         error_message := some "No content scraped", briefing_id := none },
       none, []) :=
  run_daily_briefing_zero_posts empty_run_inputs rfl

/-- On an unparseable response the researcher parse falls back to the
dictionary with an empty trends list. -/
theorem researcher_parse_fallback (loads : JsonLoads) (c : String)
    (hc : no_parseable_json loads c = true) :
    researcher_parse_json_response loads c = [("trends", JValue.arr [])] := by
  unfold no_parseable_json at hc
  unfold researcher_parse_json_response
  cases hs : extract_json_span c with
  | none => rfl
  | some js =>
    rw [hs] at hc
    have hc2 : (loads js).isNone = true := hc
    show (match loads js with
          | some o => o
          | none => [("trends", JValue.arr [])]) = [("trends", JValue.arr [])]
    cases hl : loads js with
    | none => rfl
    | some o => rw [hl] at hc2; simp at hc2

/-- On an unparseable response the synthesizer parse falls back to the
empty dictionary. -/
theorem synthesizer_parse_fallback (loads : JsonLoads) (c : String)
    (hc : no_parseable_json loads c = true) :
    synthesizer_parse_json_response loads c = [] := by
  unfold no_parseable_json at hc
  unfold synthesizer_parse_json_response
  cases hs : extract_json_span c with
  | none => rfl
  | some js =>
    rw [hs] at hc
    have hc2 : (loads js).isNone = true := hc
    show (loads js).getD [] = []
    cases hl : loads js with
    | none => rfl
    | some o => rw [hl] at hc2; simp at hc2

/-- C1: when the LLM call raises, or its response contains no parseable
JSON (no brace span, or `json.loads` fails on the extracted span), the
trend extractor returns the recovered analysis: no trends, confidence
zero, and the input post count — it hands a value back instead of
propagating the failure. -/
theorem analyze_trends_recovers_on_failure (loads : JsonLoads)
    (llm : LLMOutcome) (posts : List ScrapedPost) (now : PyDateTime)
    (h : llm = LLMOutcome.failure ∨
         ∃ c, llm = LLMOutcome.success c ∧ no_parseable_json loads c = true) :
    analyze_trends loads llm posts now =
      { trends := [], analysis_date := now,
        total_posts_analyzed := posts.length, confidence_score := 0 } := by
  rcases h with h | ⟨c, hsucc, hc⟩
  · subst h; rfl
  · subst hsucc
    simp only [analyze_trends]
    rw [researcher_parse_fallback loads c hc]
    rfl

/-- Witness for C1: a malformed response with no braces at all. -/
theorem analyze_trends_recovers_witness :
    analyze_trends (fun _ => none) (LLMOutcome.success "totally not json")
      [post0] d0 =
      { trends := [], analysis_date := d0, total_posts_analyzed := 1,
        confidence_score := 0 } :=
  analyze_trends_recovers_on_failure (fun _ => none) _ [post0] d0
    (Or.inr ⟨"totally not json", rfl, by decide⟩)

/-- Counterexample to C4 as stated: on a response with no parseable JSON
the synthesizer does not raise, returns the three empty lists, but its
executive summary is the empty string, not the analysis-failed text (which
only the exception branch produces). -/
theorem synthesize_unparseable_not_analysis_failed :
    no_parseable_json (fun _ => none) "totally not json" = true ∧
    synthesize_feedback (fun _ => none) (LLMOutcome.success "totally not json")
      analysis0 d0 =
      { priority_trends := [], market_opportunities := [], risk_factors := [],
        executive_summary := "", synthesis_date := d0 } ∧
    (synthesize_feedback (fun _ => none) (LLMOutcome.success "totally not json")
      analysis0 d0).executive_summary ≠ "Analysis failed" := by
  refine ⟨by decide, by decide, by decide⟩

/-- C4 (amended): when the synthesizer's LLM call raises, it returns the
three empty lists with executive summary `"Analysis failed"`; when the call
succeeds but the response is unparseable, it returns the three empty lists
with an empty executive summary; in both cases it returns instead of
raising. -/
theorem synthesize_feedback_failure_amended (loads : JsonLoads)
    (ta : TrendAnalysis) (now : PyDateTime) :
    synthesize_feedback loads LLMOutcome.failure ta now =
      { priority_trends := [], market_opportunities := [], risk_factors := [],
        executive_summary := "Analysis failed", synthesis_date := now } ∧
    ∀ c, no_parseable_json loads c = true →
      synthesize_feedback loads (LLMOutcome.success c) ta now =
        { priority_trends := [], market_opportunities := [], risk_factors := [],
          executive_summary := "", synthesis_date := now } := by
  constructor
  · rfl
  · intro c hc
    simp only [synthesize_feedback]
    rw [synthesizer_parse_fallback loads c hc]
    rfl

/-- Witness for C4 (amended), unparseable branch at a concrete response. -/
theorem synthesize_feedback_failure_amended_witness :
    synthesize_feedback (fun _ => none) (LLMOutcome.success "totally not json")
      analysis0 d0 =
      { priority_trends := [], market_opportunities := [], risk_factors := [],
        executive_summary := "", synthesis_date := d0 } :=
  (synthesize_feedback_failure_amended (fun _ => none) analysis0 d0).2
    "totally not json" (by decide)

/-- Destructuring a successful `synthesize_convert` into its four parsed
components. -/
theorem synthesize_convert_components (sd : JObj) (now : PyDateTime)
    (r : SynthesisResults) (h : synthesize_convert sd now = some r) :
    ∃ pts mos rfs es,
      parse_priority_trends (jget sd "priority_trends" (JValue.arr [])) = some pts ∧
      parse_market_opportunities (jget sd "market_opportunities" (JValue.arr [])) = some mos ∧
      parse_risk_factors (jget sd "risk_factors" (JValue.arr [])) = some rfs ∧
      jget_string sd "executive_summary" "" = some es ∧
      r = ⟨pts, mos, rfs, es, now⟩ := by
  simp only [synthesize_convert, Option.bind_eq_bind, Option.bind_eq_some,
    Option.pure_def, Option.some.injEq] at h
  obtain ⟨pts, h1, mos, h2, rfs, h3, es, h4, h5⟩ := h
  exact ⟨pts, mos, rfs, es, h1, h2, h3, h4, h5.symm⟩

/-- A successful `parse_priority_trends` came from an array input. -/
theorem parse_priority_trends_arr (v : JValue) (r : List PriorityTrend)
    (h : parse_priority_trends v = some r) :
    ∃ items, v = JValue.arr items ∧ parse_priority_trends_from 0 items = some r := by
  cases v <;> simp [parse_priority_trends] at h ⊢
  exact h

/-- The ranks produced by the priority-trend loop starting at index `k` are
`k+1, k+2, ...` in order. -/
theorem parse_priority_trends_from_ranks :
    ∀ (l : List JValue) (k : Nat) (r : List PriorityTrend),
      parse_priority_trends_from k l = some r →
      r.map (fun pt => pt.rank) = List.range' (k + 1) r.length
  | [], k, r, hr => by
    simp only [parse_priority_trends_from, Option.some.injEq] at hr
    subst hr
    rfl
  | item :: rest, k, r, hr => by
    simp only [parse_priority_trends_from, Option.bind_eq_bind, Option.bind_eq_some,
      Option.pure_def, Option.some.injEq] at hr
    obtain ⟨o, ho, tn, htn, rs, hrs, bs, hbs, bi, hbi, ai, hai, tail, htail, hr⟩ := hr
    subst hr
    have ih := parse_priority_trends_from_ranks rest (k + 1) tail htail
    simp only [List.map_cons, ih, PriorityTrend.mk_dataclass, List.length_cons,
      List.range'_succ (k + 1) tail.length 1]

/-- C7: every synthesis result carries priority trends ranked by extraction
order: the list of ranks is exactly `1, 2, ..., n`, so the element at
0-based position `i` has rank `i + 1`, regardless of any rank value present
in the parsed data (the conversion never reads a rank field). -/
theorem synthesize_feedback_rank_normalization (loads : JsonLoads)
    (llm : LLMOutcome) (ta : TrendAnalysis) (now : PyDateTime) :
    (synthesize_feedback loads llm ta now).priority_trends.map (fun pt => pt.rank) =
      List.range' 1 (synthesize_feedback loads llm ta now).priority_trends.length := by
  cases llm with
  | failure => rfl
  | success content =>
    simp only [synthesize_feedback]
    cases hc : synthesize_convert (synthesizer_parse_json_response loads content) now with
    | none => rfl
    | some r =>
      obtain ⟨pts, mos, rfs, es, hpts, hmos, hrfs, hes, hr⟩ :=
        synthesize_convert_components _ now r hc
      subst hr
      obtain ⟨items, hv, hfrom⟩ := parse_priority_trends_arr _ pts hpts
      simpa using parse_priority_trends_from_ranks items 0 pts hfrom

/-- Counterexample to C8 as stated: with both Notion credentials configured
in the environment (and nothing else), the credentials flag is on, yet the
sink pipeline does not attempt the Notion handler, because the pipeline is
gated on the separate `output.notion_enabled` flag that environment loading
never sets. -/
theorem notion_sink_not_attempted_counterexample :
    (load_from_env env_notion_only).notion.token ≠ "" ∧
    (load_from_env env_notion_only).notion.database_id ≠ "" ∧
    (load_from_env env_notion_only).notion.enabled = true ∧
    "NotionOutputHandler" ∉ output_pipeline_handler_names (load_from_env env_notion_only) := by
  refine ⟨by decide, by decide, by decide, by decide⟩

/-- C8 (amended): the credentials flag `notion.enabled` is on exactly when
both the token and the database identifier are configured (non-empty), and
a disabled Notion handler silently returns `false` without error; but the
sink pipeline attempts the Notion handler based on the separate
`output.notion_enabled` flag, which environment loading leaves at its
default `false` (it is not derived from the credentials), so after loading
from the environment the pipeline holds only the Markdown and JSON handlers
selected by their own flags. -/
theorem notion_enablement_amended (env : String → Option String)
    (api_call : Except String Unit) :
    (load_from_env env).notion.enabled =
      (!(getenv_default env "NOTION_TOKEN" "" == "") &&
       !(getenv_default env "NOTION_DATABASE_ID" "" == "")) ∧
    (load_from_env env).output.notion_enabled = false ∧
    output_pipeline_handler_names (load_from_env env) =
      (if (load_from_env env).output.markdown_enabled
        then ["MarkdownOutputHandler"] else []) ++
      (if (load_from_env env).output.json_enabled
        then ["JSONOutputHandler"] else []) ∧
    notion_handler_save false api_call = Except.ok false := by
  refine ⟨rfl, rfl, ?_, rfl⟩
  simp [output_pipeline_handler_names, load_from_env]

/-- Cancellation of a shared literal head and tail around a string. -/
theorem string_append_cancel (p s x y : String)
    (h : p ++ x ++ s = p ++ y ++ s) : x = y := by
  have hd := congrArg String.data h
  simp only [String.data_append] at hd
  exact String.ext (List.append_cancel_left (List.append_cancel_right hd))

/-- Counterexample to C9 as stated: two briefings with distinct briefing
identifiers, produced on the same calendar day, are written to the same
Markdown file, because the Markdown file name is derived from the date, not
from the identifier. -/
theorem markdown_filename_collision :
    briefing_a.briefing_id ≠ briefing_b.briefing_id ∧
    markdown_filename briefing_a = markdown_filename briefing_b := by
  refine ⟨by decide, by decide⟩

/-- C9 (amended): the Markdown file name is derived deterministically from
the briefing date (so briefings on the same day collide), while the JSON
file name is derived deterministically from the briefing identifier, and
distinct identifiers always yield distinct JSON files. -/
theorem briefing_filename_derivation (b b1 b2 : DailyBriefing)
    (h : b1.briefing_id ≠ b2.briefing_id) :
    markdown_filename b = "kbeauty_briefing_" ++ strftime_Ymd b.date ++ ".md" ∧
    json_filename b = "kbeauty_briefing_" ++ b.briefing_id ++ ".json" ∧
    json_filename b1 ≠ json_filename b2 := by
  refine ⟨rfl, rfl, fun hq => h ?_⟩
  exact string_append_cancel "kbeauty_briefing_" ".json" _ _ hq

/-- Witness for C9 (amended) at two concrete briefings with distinct ids. -/
theorem briefing_filename_derivation_witness :
    json_filename briefing_a ≠ json_filename briefing_b :=
  (briefing_filename_derivation briefing_a briefing_a briefing_b (by decide)).2.2

/-- A converted trend always holds actual lists in its two list fields. -/
theorem jvalue_to_trend_list_fields (o : JObj) (t : Trend)
    (h : jvalue_to_trend o = some t) :
    t.sources.isSome = true ∧ t.keywords.isSome = true := by
  simp only [jvalue_to_trend, Option.bind_eq_bind, Option.bind_eq_some,
    Option.pure_def, Option.some.injEq] at h
  obtain ⟨tn, _, ds, _, cf, _, cs, _, ct, _, bs, _, bi, _, srcs, _, kws, _, ht⟩ := h
  subst ht
  simp [Trend.mk_dataclass]

/-- Every trend produced by the conversion loop holds actual lists. -/
theorem convert_trends_list_fields :
    ∀ (items : List JValue) (l : List Trend),
      convert_trends_list items = some l →
      l.all (fun t => t.sources.isSome && t.keywords.isSome) = true
  | [], l, h => by
    simp only [convert_trends_list, Option.some.injEq] at h
    subst h
    rfl
  | it :: rest, l, h => by
    simp only [convert_trends_list, Option.bind_eq_bind, Option.bind_eq_some,
      Option.pure_def, Option.some.injEq] at h
    obtain ⟨o, ho, t, ht, tail, htail, hl⟩ := h
    subst hl
    have hf := jvalue_to_trend_list_fields o t ht
    have ih := convert_trends_list_fields rest tail htail
    simp [List.all_cons, hf.1, hf.2, ih]

/-- Every trend produced from the `trends` entry holds actual lists. -/
theorem convert_trends_fields (v : JValue) (l : List Trend)
    (h : convert_trends v = some l) :
    l.all (fun t => t.sources.isSome && t.keywords.isSome) = true := by
  cases v <;> simp only [convert_trends] at h <;> try exact absurd h (by simp)
  exact convert_trends_list_fields _ _ h

/-- Every parsed priority trend holds an actual action-item list. -/
theorem parse_priority_trends_from_fields :
    ∀ (items : List JValue) (k : Nat) (l : List PriorityTrend),
      parse_priority_trends_from k items = some l →
      l.all (fun pt => pt.action_items.isSome) = true
  | [], k, l, h => by
    simp only [parse_priority_trends_from, Option.some.injEq] at h
    subst h
    rfl
  | it :: rest, k, l, h => by
    simp only [parse_priority_trends_from, Option.bind_eq_bind, Option.bind_eq_some,
      Option.pure_def, Option.some.injEq] at h
    obtain ⟨o, ho, tn, htn, rs, hrs, bs, hbs, bi, hbi, ai, hai, tail, htail, hl⟩ := h
    subst hl
    have ih := parse_priority_trends_from_fields rest (k + 1) tail htail
    simp [List.all_cons, PriorityTrend.mk_dataclass, ih]

/-- Every parsed market opportunity holds an actual action-item list. -/
theorem parse_market_opportunities_list_fields :
    ∀ (items : List JValue) (l : List MarketOpportunity),
      parse_market_opportunities_list items = some l →
      l.all (fun mo => mo.action_items.isSome) = true
  | [], l, h => by
    simp only [parse_market_opportunities_list, Option.some.injEq] at h
    subst h
    rfl
  | it :: rest, l, h => by
    simp only [parse_market_opportunities_list, Option.bind_eq_bind, Option.bind_eq_some,
      Option.pure_def, Option.some.injEq] at h
    obtain ⟨o, ho, mo, hmo, tail, htail, hl⟩ := h
    subst hl
    have ih := parse_market_opportunities_list_fields rest tail htail
    simp only [jvalue_to_market_opportunity, Option.bind_eq_bind, Option.bind_eq_some,
      Option.pure_def, Option.some.injEq] at hmo
    obtain ⟨nm, _, ds, _, pv, _, th, _, ai, _, hmo⟩ := hmo
    subst hmo
    simp [List.all_cons, MarketOpportunity.mk_dataclass, ih]

/-- Every parsed risk factor holds an actual mitigation-strategy list. -/
theorem parse_risk_factors_list_fields :
    ∀ (items : List JValue) (l : List RiskFactor),
      parse_risk_factors_list items = some l →
      l.all (fun rf => rf.mitigation_strategies.isSome) = true
  | [], l, h => by
    simp only [parse_risk_factors_list, Option.some.injEq] at h
    subst h
    rfl
  | it :: rest, l, h => by
    simp only [parse_risk_factors_list, Option.bind_eq_bind, Option.bind_eq_some,
      Option.pure_def, Option.some.injEq] at h
    obtain ⟨o, ho, rf, hrf, tail, htail, hl⟩ := h
    subst hl
    have ih := parse_risk_factors_list_fields rest tail htail
    simp only [jvalue_to_risk_factor, Option.bind_eq_bind, Option.bind_eq_some,
      Option.pure_def, Option.some.injEq] at hrf
    obtain ⟨nm, _, ds, _, sv, _, ms, _, hrf⟩ := hrf
    subst hrf
    simp [List.all_cons, RiskFactor.mk_dataclass, ih]

/-- C10: every dataclass constructor replaces a `None` list argument by the
empty list (the field is always an actual list after construction), and the
pipeline never undoes this: every trend an extractor run produces and every
priority trend, market opportunity and risk factor a synthesizer run
produces carries actual lists in its list-valued fields. -/
theorem list_fields_never_none (s1 s2 s3 s4 s5 s6 s7 s8 s9 : String)
    (cf : Rat) (ct : TrendCategory) (bi : BusinessImpact) (rk : Nat)
    (srcs kws ai1 ai2 ms : Option (List String))
    (loads : JsonLoads) (llm : LLMOutcome) (posts : List ScrapedPost)
    (ta : TrendAnalysis) (now : PyDateTime) :
    (Trend.mk_dataclass s1 s2 cf ct bi srcs kws).sources = some (srcs.getD []) ∧
    (Trend.mk_dataclass s1 s2 cf ct bi srcs kws).keywords = some (kws.getD []) ∧
    (PriorityTrend.mk_dataclass rk s1 s3 bi ai1).action_items = some (ai1.getD []) ∧
    (MarketOpportunity.mk_dataclass s4 s5 s6 s7 ai2).action_items = some (ai2.getD []) ∧
    (RiskFactor.mk_dataclass s8 s5 s9 ms).mitigation_strategies = some (ms.getD []) ∧
    ((analyze_trends loads llm posts now).trends.all
      (fun t => t.sources.isSome && t.keywords.isSome)) = true ∧
    ((synthesize_feedback loads llm ta now).priority_trends.all
      (fun pt => pt.action_items.isSome)) = true ∧
    ((synthesize_feedback loads llm ta now).market_opportunities.all
      (fun mo => mo.action_items.isSome)) = true ∧
    ((synthesize_feedback loads llm ta now).risk_factors.all
      (fun rf => rf.mitigation_strategies.isSome)) = true := by
  refine ⟨rfl, rfl, rfl, rfl, rfl, ?_, ?_, ?_, ?_⟩
  · cases llm with
    | failure => rfl
    | success content =>
      simp only [analyze_trends]
      cases hct : convert_trends (jget (researcher_parse_json_response loads content)
          "trends" (JValue.arr [])) with
      | none => rfl
      | some trends =>
        cases hcr : jget_rat (researcher_parse_json_response loads content)
            "confidence_score" 0 with
        | none => rfl
        | some cs => exact convert_trends_fields _ trends hct
  all_goals cases llm with
    | failure => rfl
    | success content =>
      cases hc : synthesize_convert (synthesizer_parse_json_response loads content) now with
      | none => simp only [synthesize_feedback, hc]; rfl
      | some r =>
        obtain ⟨pts, mos, rfs, es, hpts, hmos, hrfs, hes, hr⟩ :=
          synthesize_convert_components _ now r hc
        subst hr
        simp only [synthesize_feedback, hc]
        first
        | (obtain ⟨items, hv, hfrom⟩ := parse_priority_trends_arr _ pts hpts
           exact parse_priority_trends_from_fields items 0 pts hfrom)
        | (cases hvv : jget (synthesizer_parse_json_response loads content)
              "market_opportunities" (JValue.arr []) <;> rw [hvv] at hmos <;>
             simp only [parse_market_opportunities] at hmos <;>
             first
             | exact parse_market_opportunities_list_fields _ mos hmos
             | exact absurd hmos (by simp))
        | (cases hvv : jget (synthesizer_parse_json_response loads content)
              "risk_factors" (JValue.arr []) <;> rw [hvv] at hrfs <;>
             simp only [parse_risk_factors] at hrfs <;>
             first
             | exact parse_risk_factors_list_fields _ rfs hrfs
             | exact absurd hrfs (by simp))

end KBTA
